import Mathlib

/-!
Shallow embedding of the Go student-backend repository: data model, the
credential service (JWT issue/validate), the authentication middleware,
and the auth/student/teacher/group resource handlers, together with
theorems settling the specification claims.

Conventions of the embedding:
* Go `uint` record ids are Lean `Nat`; the explicit Go conversion
  `uint(i)` of a signed `int` is `goUint`, a wrap modulo 2^64.
* The record store (gorm) is a pure state: lists of rows.  Single-row
  reads are `List.find?`; gorm's soft delete is observationally a list
  removal here.  Store *writes* during registration consume an explicit
  outcome schedule (`List Bool`), because the registration claims are
  about what persists when a write fails; read-only store calls are pure
  and their unreachable 500-branches are omitted.
* bcrypt and the HMAC signature are symbolic: a hash / signature is a
  constructor application remembering its inputs, so two signatures are
  equal exactly when secret, algorithm and payload agree.
* An HTTP response is a status code plus a payload; bodies written via
  `http.Error` are kept verbatim as strings (modulo the trailing newline
  `http.Error` appends).
-/

namespace StudentBackend

/-- Role constants from `models/user.go`. -/
def RoleAdmin : String := "admin"

/-- Role constant for teachers. -/
def RoleTeacher : String := "teacher"

/-- Role constant for students. -/
def RoleStudent : String := "student"

/-- Go `uint(i)` conversion of a signed 64-bit `int`: wraps modulo 2^64. -/
def goUint (i : Int) : Nat := (i % (2 : Int) ^ 64).toNat

/-- Parse a run of decimal digits (at least one) to a `Nat`,
`none` when empty or a non-digit occurs.  Helper for `atoi`. -/
def digitsToNat : List Char → Option Nat
  | [] => none
  | cs => go cs 0
where
  go : List Char → Nat → Option Nat
    | [], acc => some acc
    | c :: rest, acc =>
      if c.isDigit then go rest (acc * 10 + (c.toNat - '0'.toNat)) else none

/-- `strconv.Atoi`: optional sign, then one or more digits; anything else
is an error (`none`).  64-bit range errors are not modelled; every id in
this development is far below 2^63. -/
def atoi (s : String) : Option Int :=
  match s.toList with
  | '+' :: rest => (digitsToNat rest).map Int.ofNat
  | '-' :: rest => (digitsToNat rest).map (fun n => -(n : Int))
  | cs => (digitsToNat cs).map Int.ofNat

/-- Go's pattern `page, _ := strconv.Atoi(s)`: the error is discarded and
the zero value is kept on failure. -/
def atoiOr0 (s : String) : Int := (atoi s).getD 0

/-- `strings.Trim(s, "*")`: remove leading and trailing `*` characters
(the handlers strip wildcard stars off filter values). -/
def trimStar (s : String) : String :=
  String.mk (((s.toList.dropWhile (· == '*')).reverse.dropWhile (· == '*')).reverse)

/-- Split a character list at every occurrence of `sep`, keeping empty
segments (helper for `goSplit`). -/
def splitChars (sep : Char) : List Char → List (List Char)
  | [] => [[]]
  | c :: rest =>
    match splitChars sep rest with
    | [] => [[c]]
    | cur :: more => if c == sep then [] :: cur :: more else (c :: cur) :: more

/-- Go `strings.Split(s, sep)` for a one-character separator: empty
segments are kept, and splitting the empty string gives `[""]`. -/
def goSplit (s : String) (sep : Char) : List String :=
  (splitChars sep s.toList).map String.mk

/-- Go `strings.HasPrefix`. -/
def strHasPrefix (s pre : String) : Bool :=
  pre.toList.isPrefixOf s.toList

/-- Substring scan over character lists (helper for `ilikeContains`). -/
def containsSub : List Char → List Char → Bool
  | hay, needle =>
    needle.isPrefixOf hay ||
      match hay with
      | [] => false
      | _ :: rest => containsSub rest needle

/-- ASCII lowercase of one character (case folding of `ILIKE`). -/
def lowerChar (c : Char) : Char :=
  if 'A' ≤ c ∧ c ≤ 'Z' then Char.ofNat (c.toNat + 32) else c

/-- Case-insensitive substring test: the model of the SQL pattern
`ILIKE '%' || pat || '%'` built by the list handlers (ASCII folding). -/
def ilikeContains (hay pat : String) : Bool :=
  containsSub (hay.toList.map lowerChar) (pat.toList.map lowerChar)

/-- `models.Student` (the gorm variant used by the handlers):
id, name, surname, email, optional group link, optional owning user. -/
structure Student where
  id : Nat
  name : String
  surname : String
  email : String
  groupID : Option Nat
  userID : Option Nat
  deriving DecidableEq, Repr

/-- `models.Teacher`: id, names, unique email, phone, optional owning
user, plus the many-to-many group association (group ids). -/
structure Teacher where
  id : Nat
  name : String
  surname : String
  email : String
  phone : String
  userID : Option Nat
  groups : List Nat
  deriving DecidableEq, Repr

/-- `models.Group`: id, name, unique code. -/
structure Group where
  id : Nat
  name : String
  code : String
  deriving DecidableEq, Repr

/-- `models.User`: id, unique email, password hash, role string, optional
links to a student / teacher row. -/
structure User where
  id : Nat
  email : String
  password : String
  role : String
  studentID : Option Nat
  teacherID : Option Nat
  deriving DecidableEq, Repr

/-- The persistent record store: one list of rows per table plus the
autoincrement counters gorm assigns ids from. -/
structure DB where
  users : List User
  students : List Student
  teachers : List Teacher
  groups : List Group
  nextUserId : Nat
  nextStudentId : Nat
  nextTeacherId : Nat
  nextGroupId : Nat
  deriving DecidableEq, Repr

/-- The empty store. -/
def DB.empty : DB :=
  { users := [], students := [], teachers := [], groups := []
    nextUserId := 1, nextStudentId := 1, nextTeacherId := 1, nextGroupId := 1 }

/-- Symbolic bcrypt (`auth.HashPassword`): a one-way tag remembering the
plaintext, standing for hash-with-salt; only `checkPassword` looks inside. -/
def hashPassword (password : String) : String := "bcrypt$" ++ password

/-- `auth.CheckPassword`: bcrypt comparison succeeds exactly when the
hash was produced from this plaintext. -/
def checkPassword (password hashedPassword : String) : Bool :=
  hashedPassword == hashPassword password

/-- JWT signing algorithms that can appear in a token header. -/
inductive Alg where
  | HS256 | HS384 | HS512 | RS256 | ES256 | noAlg
  deriving DecidableEq, Repr

/-- Membership in the HMAC family (`*jwt.SigningMethodHMAC`). -/
def Alg.isHMAC : Alg → Bool
  | .HS256 | .HS384 | .HS512 => true
  | _ => false

/-- `auth.JWTClaims`: custom fields plus the registered claims the code
sets (`exp`, `iat`, `nbf` as Unix seconds, `sub`). -/
structure JWTClaims where
  userID : Nat
  email : String
  role : String
  exp : Int
  iat : Int
  nbf : Int
  sub : String
  deriving DecidableEq, Repr

/-- A symbolic MAC: two signatures are equal exactly when key, algorithm
and signed payload agree (ideal unforgeable MAC). -/
structure Sig where
  key : String
  alg : Alg
  payload : JWTClaims
  deriving DecidableEq, Repr

/-- A signed token: header algorithm, claims, signature. -/
structure SignedToken where
  alg : Alg
  claims : JWTClaims
  sig : Sig
  deriving DecidableEq, Repr

/-- `auth.JWTService`: server secret and expiry in hours. -/
structure JWTService where
  secretKey : String
  expiry : Int
  deriving DecidableEq, Repr

/-- `JWTService.GenerateToken`: claims carry the user's id/email/role,
`exp = now + expiry hours`, `iat = nbf = now`, `sub = email`; the token
is HS256-signed with the service secret.  (Signing cannot fail in the
symbolic model.) -/
def generateToken (svc : JWTService) (user : User) (now : Int) : SignedToken :=
  let claims : JWTClaims :=
    { userID := user.id, email := user.email, role := user.role
      exp := now + svc.expiry * 3600, iat := now, nbf := now, sub := user.email }
  { alg := .HS256, claims := claims
    sig := { key := svc.secretKey, alg := .HS256, payload := claims } }

/-- `JWTService.ValidateToken` via `jwt.ParseWithClaims`: the keyfunc
rejects non-HMAC algorithms; the registered-claims validation rejects
`exp ≤ now` (jwt/v4 requires `now` strictly before `exp`), `now < nbf`
and `now < iat`; finally the signature must be the MAC of these claims
under the service secret and the token's algorithm. -/
def validateToken (svc : JWTService) (tok : SignedToken) (now : Int) :
    Except String JWTClaims :=
  if ¬ tok.alg.isHMAC then .error "unexpected signing method"
  else if tok.claims.exp ≤ now then .error "token is expired"
  else if now < tok.claims.nbf then .error "token is not valid yet"
  else if now < tok.claims.iat then .error "token used before issued"
  else if tok.sig = { key := svc.secretKey, alg := tok.alg, payload := tok.claims } then
    .ok tok.claims
  else .error "signature is invalid"

/-- True exactly on a successful validation result. -/
def exceptOk : Except String JWTClaims → Bool
  | .ok _ => true
  | .error _ => false

/-- Pagination metadata (`models.Meta`), Go `int` fields as `Int`. -/
structure Meta where
  totalItems : Int
  totalPages : Int
  currentPage : Int
  perPage : Int
  remainingCount : Int
  deriving DecidableEq, Repr

/-- A response payload: either a raw `http.Error` body string, or one of
the JSON-encoded success shapes the handlers produce. -/
inductive Payload where
  | raw (body : String)
  | studentObj (s : Student)
  | teacherObj (t : Teacher)
  | groupObj (g : Group)
  | userObj (u : User)
  | authPayload (token : SignedToken) (user : User)
  | paginatedStudents (meta : Meta) (items : List Student)
  | paginatedTeachers (meta : Meta) (items : List Teacher)
  | noContent
  deriving DecidableEq, Repr

/-- An HTTP response: status code and payload. -/
structure Response where
  status : Nat
  payload : Payload
  deriving DecidableEq, Repr

/-- Shorthand for an `http.Error` response, body kept verbatim. -/
def errResp (status : Nat) (body : String) : Response :=
  { status := status, payload := .raw body }

/-- Error body constants (the `\x7b`/`\x7d` escapes are the literal
braces of the JSON text). -/
def bodyNotAuthenticated : String := "\x7b\"error\": \"Not authenticated\"\x7d"

/-- Body used by every role/ownership denial except the student-update ones. -/
def bodyInsufficientPermissions : String := "\x7b\"error\": \"Insufficient permissions\"\x7d"

/-- Middleware body when no Authorization header is present. -/
def bodyAuthHeaderRequired : String := "\x7b\"error\": \"Authorization header required\"\x7d"

/-- Middleware body when the Authorization header is malformed. -/
def bodyInvalidAuthFormat : String := "\x7b\"error\": \"Invalid authorization format\"\x7d"

/-- Middleware body when token validation fails. -/
def bodyInvalidOrExpiredToken : String := "\x7b\"error\": \"Invalid or expired token\"\x7d"

/-- Login failure body, identical for unknown email and wrong password. -/
def bodyInvalidEmailOrPassword : String := "\x7b\"error\": \"Invalid email or password\"\x7d"

/-- Body for an undecodable JSON request body. -/
def bodyInvalidRequestBody : String := "\x7b\"error\": \"Invalid request body\"\x7d"

/-- Register conflict body for an already-used email. -/
def bodyUserAlreadyExists : String := "\x7b\"error\": \"User with this email already exists\"\x7d"

/-- Generic internal error body. -/
def bodyInternalServerError : String := "\x7b\"error\": \"Internal server error\"\x7d"

/-- Student handler: malformed path id. -/
def bodyInvalidStudentId : String := "\x7b\"error\": \"Invalid student ID\"\x7d"

/-- Student handler: the acting student has no linked student row. -/
def bodyStudentRecordNotFound : String := "\x7b\"error\": \"Student record not found\"\x7d"

/-- Student handler: ownership mismatch on update. -/
def bodyCanOnlyEditOwnData : String := "\x7b\"error\": \"Can only edit your own data\"\x7d"

/-- Student handler: no row with the requested id. -/
def bodyStudentNotFound : String := "\x7b\"error\": \"Student not found\"\x7d"

/-- Student handler: missing name or surname. -/
def bodyNameSurnameRequired : String := "\x7b\"error\": \"Name and surname are required\"\x7d"

/-- Teacher handler: malformed path id. -/
def bodyInvalidTeacherId : String := "\x7b\"error\": \"Invalid teacher ID\"\x7d"

/-- Teacher handler: no row with the requested id. -/
def bodyTeacherNotFound : String := "\x7b\"error\": \"Teacher not found\"\x7d"

/-- Teacher handler: undecodable JSON body on create. -/
def bodyInvalidJSONFormat : String := "\x7b\"error\": \"Invalid JSON format\"\x7d"

/-- Teacher handler: missing required create fields. -/
def bodyTeacherFieldsRequired : String := "\x7b\"error\": \"Name, surname and email are required\"\x7d"

/-- Teacher handler: duplicate email on create. -/
def bodyTeacherEmailExists : String := "\x7b\"error\": \"Teacher with this email already exists\"\x7d"

/-- Teacher handler: create failed in the store. -/
def bodyTeacherCreateFailed : String := "\x7b\"error\": \"Failed to create teacher in database\"\x7d"

/-- Outcome of the authentication middleware on one request. -/
inductive MwResult where
  | publicDispatch
  | rejected (status : Nat) (body : String)
  | forwarded (claims : JWTClaims)
  deriving DecidableEq, Repr

/-- The public-route list hard-coded inside `AuthMiddleware` (exact
matches only). -/
def publicRoutes : List String := ["/", "/health", "/api/auth/login", "/api/auth/register"]

/-- `middleware.IsPublicRoute` from `middleware/public_routes.go`: exact
match against the list, or (checked inside the loop, hence for every
non-empty list iteration) the `/api/auth/` path-prefix rule. -/
def isPublicRoute (path : String) : Bool :=
  publicRoutes.any (fun route => path == route || strHasPrefix path "/api/auth/")

/-- `AuthMiddleware.AuthMiddleware` from the middleware source: dispatch
public paths untouched; otherwise require `Authorization: Bearer <tok>`
(a missing header reads as `""` through `Header.Get`), split on single
spaces exactly as `strings.Split`, and hand the token to the credential
service, abstracted here as the `validate` parameter. -/
def authMiddleware (validate : String → Except String JWTClaims)
    (path : String) (authHeader : String) : MwResult :=
  if publicRoutes.contains path then .publicDispatch
  else if authHeader == "" then .rejected 401 bodyAuthHeaderRequired
  else
    -- `len(bearerToken) != 2 || bearerToken[0] != "Bearer"` rejects;
    -- its complement is exactly the two-element pattern whose head is
    -- "Bearer", with `token := bearerToken[1]`.
    match goSplit authHeader ' ' with
    | [b, token] =>
      if b != "Bearer" then .rejected 401 bodyInvalidAuthFormat
      else
        match validate token with
        | .error _ => .rejected 401 bodyInvalidOrExpiredToken
        | .ok claims => .forwarded claims
    | _ => .rejected 401 bodyInvalidAuthFormat

/-- `models.LoginRequest` (decoded body). -/
structure LoginRequest where
  email : String
  password : String
  deriving DecidableEq, Repr

/-- `models.RegisterRequest` (decoded body). -/
structure RegisterRequest where
  email : String
  password : String
  role : String
  deriving DecidableEq, Repr

/-- `AuthHandler.Login`: decode body (failure ⇒ 400), look the user up
by email (miss ⇒ 401), verify the password (miss ⇒ 401 with the *same*
body), issue a token and answer `{token, user}` with the password field
blanked. -/
def login (svc : JWTService) (now : Int) (db : DB)
    (body? : Option LoginRequest) : Response :=
  match body? with
  | none => errResp 400 bodyInvalidRequestBody
  | some req =>
    match db.users.find? (fun u => u.email == req.email) with
    | none => errResp 401 bodyInvalidEmailOrPassword
    | some user =>
      if ¬ checkPassword req.password user.password then
        errResp 401 bodyInvalidEmailOrPassword
      else
        { status := 200
          payload := .authPayload (generateToken svc user now) { user with password := "" } }

/-- Outcome schedule for fallible store writes: `takeOutcome` pops the
next write's success flag, an exhausted schedule meaning success. -/
def takeOutcome : List Bool → Bool × List Bool
  | [] => (true, [])
  | b :: rest => (b, rest)

/-- Second half of `AuthHandler.Register`: create the `User` row (its
`student_id`/`teacher_id` already set), then backfill `user_id` on the
linked row (the code discards the backfill error), then issue the token
and answer 201.  `db` already contains the linked row created first. -/
def registerCreateUser (svc : JWTService) (now : Int) (db : DB)
    (req : RegisterRequest) (hashed : String)
    (studentID teacherID : Option Nat) (sched : List Bool) : Response × DB :=
  let step := takeOutcome sched
  if ¬ step.1 then (errResp 500 bodyInternalServerError, db)
  else
    let user : User :=
      { id := db.nextUserId, email := req.email, password := hashed
        role := req.role, studentID := studentID, teacherID := teacherID }
    let db2 := { db with users := db.users ++ [user], nextUserId := db.nextUserId + 1 }
    let step2 := takeOutcome step.2
    let db3 :=
      match studentID with
      | some sid =>
        if step2.1 then
          { db2 with students :=
              db2.students.map (fun s => if s.id == sid then { s with userID := some user.id } else s) }
        else db2
      | none =>
        match teacherID with
        | some tid =>
          if step2.1 then
            { db2 with teachers :=
                db2.teachers.map (fun t => if t.id == tid then { t with userID := some user.id } else t) }
          else db2
        | none => db2
    ( { status := 201
        payload := .authPayload (generateToken svc user now) { user with password := "" } }
    , db3 )

/-- `AuthHandler.Register`: decode body (400), reject an existing email
(409), hash the password, then — branching on the requested role — first
create a placeholder Student/Teacher row, then the User, then backfill
the link.  Store writes consume the outcome schedule in program order:
linked-row create, user create, backfill update. -/
def register (svc : JWTService) (now : Int) (db : DB)
    (body? : Option RegisterRequest) (sched : List Bool) : Response × DB :=
  match body? with
  | none => (errResp 400 bodyInvalidRequestBody, db)
  | some req =>
    match db.users.find? (fun u => u.email == req.email) with
    | some _ => (errResp 409 bodyUserAlreadyExists, db)
    | none =>
      let hashed := hashPassword req.password
      if req.role == RoleStudent then
        let step := takeOutcome sched
        if ¬ step.1 then (errResp 500 bodyInternalServerError, db)
        else
          let student : Student :=
            { id := db.nextStudentId, name := "New", surname := "Student"
              email := req.email, groupID := none, userID := none }
          let db1 := { db with students := db.students ++ [student]
                               nextStudentId := db.nextStudentId + 1 }
          registerCreateUser svc now db1 req hashed (some student.id) none step.2
      else if req.role == RoleTeacher then
        let step := takeOutcome sched
        if ¬ step.1 then (errResp 500 bodyInternalServerError, db)
        else
          let teacher : Teacher :=
            { id := db.nextTeacherId, name := "New", surname := "Teacher"
              email := req.email, phone := "", userID := none, groups := [] }
          let db1 := { db with teachers := db.teachers ++ [teacher]
                               nextTeacherId := db.nextTeacherId + 1 }
          registerCreateUser svc now db1 req hashed none (some teacher.id) step.2
      else
        registerCreateUser svc now db req hashed none none sched

/-- Decoded JSON body of a student update/create request (the handlers
only read the name and surname fields). -/
structure StudentBody where
  name : String
  surname : String
  deriving DecidableEq, Repr

/-- Zero value of `models.Student`, encoded when the post-update
re-fetch misses (its error is discarded by the code). -/
def emptyStudent : Student :=
  { id := 0, name := "", surname := "", email := "", groupID := none, userID := none }

/-- Tail of `StudentHandler.UpdateStudent` after the policy gate: decode
body (400), validate name/surname (400), fetch by id (404), update the
two fields, re-fetch and answer 200.  Shared by every role, mirroring
the fall-through after the student ownership branch. -/
def updateStudentRest (db : DB) (id : Int) (body? : Option StudentBody) :
    Response × DB :=
  match body? with
  | none => (errResp 400 bodyInvalidRequestBody, db)
  | some b =>
    if b.name == "" || b.surname == "" then
      (errResp 400 bodyNameSurnameRequired, db)
    else
      match db.students.find? (fun s => (s.id : Int) == id) with
      | none => (errResp 404 bodyStudentNotFound, db)
      | some existing =>
        let newStudents := db.students.map (fun s =>
          if s.id == existing.id then { s with name := b.name, surname := b.surname } else s)
        let db2 := { db with students := newStudents }
        let updated := (db2.students.find? (fun s => (s.id : Int) == id)).getD emptyStudent
        ({ status := 200, payload := .studentObj updated }, db2)

/-- `StudentHandler.UpdateStudent`: claims presence (401), then the path
id is parsed (malformed ⇒ 400), then the student-role ownership check
(no linked row ⇒ 403, id mismatch under Go's `uint(id)` cast ⇒ 403),
then the shared update tail. -/
def updateStudent (db : DB) (claims? : Option JWTClaims) (pathId : String)
    (body? : Option StudentBody) : Response × DB :=
  match claims? with
  | none => (errResp 401 bodyNotAuthenticated, db)
  | some claims =>
    match atoi pathId with
    | none => (errResp 400 bodyInvalidStudentId, db)
    | some id =>
      if claims.role == RoleStudent then
        match db.students.find? (fun s => s.userID == some claims.userID) with
        | none => (errResp 403 bodyStudentRecordNotFound, db)
        | some userStudent =>
          if goUint id != userStudent.id then
            (errResp 403 bodyCanOnlyEditOwnData, db)
          else updateStudentRest db id body?
      else updateStudentRest db id body?

/-- `StudentHandler.DeleteStudent`: claims presence (401), admin-only
role gate (403), path id parse (400), fetch by id (404), delete (204). -/
def deleteStudent (db : DB) (claims? : Option JWTClaims) (pathId : String) :
    Response × DB :=
  match claims? with
  | none => (errResp 401 bodyNotAuthenticated, db)
  | some claims =>
    if claims.role != RoleAdmin then (errResp 403 bodyInsufficientPermissions, db)
    else
      match atoi pathId with
      | none => (errResp 400 bodyInvalidStudentId, db)
      | some id =>
        match db.students.find? (fun s => (s.id : Int) == id) with
        | none => (errResp 404 bodyStudentNotFound, db)
        | some student =>
          let db2 := { db with students := db.students.filter (fun s => s.id != student.id) }
          ({ status := 204, payload := .noContent }, db2)

/-- Shared pagination arithmetic of the list handlers: clamp page/limit,
and build `models.Meta` from the total count (Go `int` arithmetic; all
operands are non-negative, so `Int` division is exact truncation). -/
def buildMeta (totalItems page limit : Int) : Meta :=
  { totalItems := totalItems
    totalPages := (totalItems + limit - 1) / limit
    currentPage := page
    perPage := limit
    remainingCount := if totalItems - page * limit < 0 then 0 else totalItems - page * limit }

/-- The store's offset/limit slice of the filtered rows.  The requested
`sortBy` column ordering is performed by the external store and only
permutes the returned page; the model returns the stored order. -/
def listSlice {α : Type} (xs : List α) (offset limit : Int) : List α :=
  (xs.drop offset.toNat).take limit.toNat

/-- Row filter of `GroupHandler.GetGroups`: star-trimmed, case-blind
substring match on name and code. -/
def groupMatches (nameF codeF : String) (g : Group) : Bool :=
  (nameF == "" || ilikeContains g.name (trimStar nameF)) &&
  (codeF == "" || ilikeContains g.code (trimStar codeF))

/-- `GroupHandler.GetGroups`: claims presence (401), admin-only gate
(403), pagination parameters, filtered count, then the response.  The
fetched page itself is dead code: the `Items` field of the response
struct is commented out in the source, so the encoded items list is the
zero value (empty). -/
def getGroups (db : DB) (claims? : Option JWTClaims)
    (pageS limitS sortBy nameF codeF : String) : Response :=
  match claims? with
  | none => errResp 401 bodyNotAuthenticated
  | some claims =>
    if claims.role != RoleAdmin then errResp 403 bodyInsufficientPermissions
    else
      let page0 := atoiOr0 pageS
      let page := if page0 < 1 then 1 else page0
      let limit0 := atoiOr0 limitS
      let limit := if limit0 < 1 then 5 else limit0
      let offset := (page - 1) * limit
      let matching := db.groups.filter (groupMatches nameF codeF)
      let totalItems : Int := matching.length
      let _fetched := listSlice matching offset limit
      let _sortBy := sortBy
      { status := 200
        payload := .paginatedStudents (buildMeta totalItems page limit) [] }

/-- Row filter of `TeacherHandler.GetTeachers`: star-trimmed, case-blind
substring match on name, surname and email. -/
def teacherMatches (nameF surnameF emailF : String) (t : Teacher) : Bool :=
  (nameF == "" || ilikeContains t.name (trimStar nameF)) &&
  (surnameF == "" || ilikeContains t.surname (trimStar surnameF)) &&
  (emailF == "" || ilikeContains t.email (trimStar emailF))

/-- `TeacherHandler.GetTeachers`: claims presence (401), admin-only gate
(403), filtered count, offset/limit page, metadata, 200. -/
def getTeachers (db : DB) (claims? : Option JWTClaims)
    (pageS limitS sortBy nameF surnameF emailF : String) : Response :=
  match claims? with
  | none => errResp 401 bodyNotAuthenticated
  | some claims =>
    if claims.role != RoleAdmin then errResp 403 bodyInsufficientPermissions
    else
      let page0 := atoiOr0 pageS
      let page := if page0 < 1 then 1 else page0
      let limit0 := atoiOr0 limitS
      let limit := if limit0 < 1 then 5 else limit0
      let offset := (page - 1) * limit
      let matching := db.teachers.filter (teacherMatches nameF surnameF emailF)
      let totalItems : Int := matching.length
      let items := listSlice matching offset limit
      let _sortBy := sortBy
      { status := 200
        payload := .paginatedTeachers (buildMeta totalItems page limit) items }

/-- Decoded JSON body of a teacher create request. -/
structure TeacherCreateBody where
  name : String
  surname : String
  email : String
  phone : String
  deriving DecidableEq, Repr

/-- `TeacherHandler.CreateTeacher`: claims presence (401), admin-only
gate (403), body decode (400), required-field validation (400),
duplicate-email check (409), create (201). -/
def createTeacher (db : DB) (claims? : Option JWTClaims)
    (body? : Option TeacherCreateBody) : Response × DB :=
  match claims? with
  | none => (errResp 401 bodyNotAuthenticated, db)
  | some claims =>
    if claims.role != RoleAdmin then (errResp 403 bodyInsufficientPermissions, db)
    else
      match body? with
      | none => (errResp 400 bodyInvalidJSONFormat, db)
      | some b =>
        if b.name == "" || b.surname == "" || b.email == "" then
          (errResp 400 bodyTeacherFieldsRequired, db)
        else
          match db.teachers.find? (fun t => t.email == b.email) with
          | some _ => (errResp 409 bodyTeacherEmailExists, db)
          | none =>
            let teacher : Teacher :=
              { id := db.nextTeacherId, name := b.name, surname := b.surname
                email := b.email, phone := b.phone, userID := none, groups := [] }
            let db2 := { db with teachers := db.teachers ++ [teacher]
                                 nextTeacherId := db.nextTeacherId + 1 }
            ({ status := 201, payload := .teacherObj teacher }, db2)

/-- Decoded JSON body of a teacher update request; `groups`, when
present, is the list of group ids mentioned in the request (Go decodes
a missing field as a nil slice, hence the `Option`). -/
structure TeacherUpdateBody where
  name : String
  surname : String
  email : String
  phone : String
  groups : Option (List Nat)
  deriving DecidableEq, Repr

/-- `TeacherHandler.UpdateTeacher`: claims presence (401), admin-only
gate (403), path id parse (400), fetch by id (404), body decode (400),
field assignments, group-association replacement when `groups` was sent
(ids `> 0` resolved against the store), save, 200. -/
def updateTeacher (db : DB) (claims? : Option JWTClaims) (pathId : String)
    (body? : Option TeacherUpdateBody) : Response × DB :=
  match claims? with
  | none => (errResp 401 bodyNotAuthenticated, db)
  | some claims =>
    if claims.role != RoleAdmin then (errResp 403 bodyInsufficientPermissions, db)
    else
      match atoi pathId with
      | none => (errResp 400 bodyInvalidTeacherId, db)
      | some id =>
        match db.teachers.find? (fun t => (t.id : Int) == id) with
        | none => (errResp 404 bodyTeacherNotFound, db)
        | some teacher =>
          match body? with
          | none => (errResp 400 bodyInvalidRequestBody, db)
          | some b =>
            let newGroups :=
              match b.groups with
              | none => teacher.groups
              | some gids =>
                let groupIDs := gids.filter (fun gid => gid > 0)
                (db.groups.filter (fun g => groupIDs.contains g.id)).map (fun g => g.id)
            let teacher2 : Teacher :=
              { teacher with name := b.name, surname := b.surname
                             email := b.email, phone := b.phone, groups := newGroups }
            let newTeachers := db.teachers.map (fun t => if t.id == teacher.id then teacher2 else t)
            let db2 := { db with teachers := newTeachers }
            ({ status := 200, payload := .teacherObj teacher2 }, db2)

/-- `TeacherHandler.DeleteTeacher`: claims presence (401), admin-only
gate (403), path id parse (400), fetch by id (404), delete (204). -/
def deleteTeacher (db : DB) (claims? : Option JWTClaims) (pathId : String) :
    Response × DB :=
  match claims? with
  | none => (errResp 401 bodyNotAuthenticated, db)
  | some claims =>
    if claims.role != RoleAdmin then (errResp 403 bodyInsufficientPermissions, db)
    else
      match atoi pathId with
      | none => (errResp 400 bodyInvalidTeacherId, db)
      | some id =>
        match db.teachers.find? (fun t => (t.id : Int) == id) with
        | none => (errResp 404 bodyTeacherNotFound, db)
        | some teacher =>
          let db2 := { db with teachers := db.teachers.filter (fun t => t.id != teacher.id) }
          ({ status := 204, payload := .noContent }, db2)

/-- Map a list by a function that fixes every element of the list. -/
theorem mapEqSelf {α : Type} {l : List α} {f : α → α}
    (h : ∀ x ∈ l, f x = x) : l.map f = l := by
  induction l with
  | nil => rfl
  | cons a t ih =>
    simp only [List.map_cons]
    rw [h a (by simp), ih (fun x hx => h x (by simp [hx]))]

/-- C7: Login answers 401 with the identical body
`{"error": "Invalid email or password"}` both when no user with the
requested email exists and when the user exists but the password does
not verify, so the two causes are indistinguishable from the response. -/
theorem c7_login_indistinguishable (svc : JWTService) (now : Int) (db : DB)
    (req : LoginRequest) :
    (db.users.find? (fun u => u.email == req.email) = none →
      login svc now db (some req) = errResp 401 bodyInvalidEmailOrPassword) ∧
    (∀ user, db.users.find? (fun u => u.email == req.email) = some user →
      checkPassword req.password user.password = false →
      login svc now db (some req) = errResp 401 bodyInvalidEmailOrPassword) := by
  constructor
  · intro h
    simp [login, h]
  · intro user h hpw
    simp [login, h, hpw]

/-- Witness for C7: a lookup miss in the empty store and a password
mismatch against a stored user produce the same 401 response. -/
theorem c7_login_indistinguishable_witness :
    login ⟨"k", 24⟩ 0 DB.empty (some ⟨"a@x.com", "secret1"⟩)
        = errResp 401 bodyInvalidEmailOrPassword ∧
    login ⟨"k", 24⟩ 0
        { DB.empty with users :=
            [⟨1, "a@x.com", hashPassword "secret1", "admin", none, none⟩] }
        (some ⟨"a@x.com", "wrongpw"⟩)
        = errResp 401 bodyInvalidEmailOrPassword := by
  constructor
  · exact (c7_login_indistinguishable ⟨"k", 24⟩ 0 DB.empty ⟨"a@x.com", "secret1"⟩).1
      (by decide)
  · exact (c7_login_indistinguishable ⟨"k", 24⟩ 0
      { DB.empty with users := [⟨1, "a@x.com", hashPassword "secret1", "admin", none, none⟩] }
      ⟨"a@x.com", "wrongpw"⟩).2
      ⟨1, "a@x.com", hashPassword "secret1", "admin", none, none⟩ (by decide) (by decide)

/-- C4: ValidateToken errors whenever the expiry is not strictly in the
future (whatever the signature), whenever the signing algorithm is
outside the HMAC family, and whenever the signing secret differs from
the service secret. -/
theorem c4_validateToken_rejects (svc : JWTService) (tok : SignedToken) (now : Int) :
    (tok.claims.exp ≤ now → exceptOk (validateToken svc tok now) = false) ∧
    (tok.alg.isHMAC = false → exceptOk (validateToken svc tok now) = false) ∧
    (tok.sig.key ≠ svc.secretKey → exceptOk (validateToken svc tok now) = false) := by
  refine ⟨?_, ?_, ?_⟩
  · intro h
    unfold validateToken
    split
    · rfl
    · rfl
  · intro h
    unfold validateToken
    split
    · rfl
    · next h2 => simp [h] at h2
  · intro h
    unfold validateToken
    split
    · rfl
    · split
      · rfl
      · split
        · rfl
        · split
          · rfl
          · split
            · next h2 => exact absurd (congrArg Sig.key h2) h
            · rfl

/-- Witness for C4: an expired well-signed token, a valid-time token
with an RSA algorithm, and a valid-time HMAC token signed under a
different secret are each rejected. -/
theorem c4_validateToken_rejects_witness :
    exceptOk (validateToken ⟨"secret", 24⟩
      ⟨.HS256, ⟨1, "a", "admin", 5, 0, 0, "a"⟩,
        ⟨"secret", .HS256, ⟨1, "a", "admin", 5, 0, 0, "a"⟩⟩⟩ 10) = false ∧
    exceptOk (validateToken ⟨"secret", 24⟩
      ⟨.RS256, ⟨1, "a", "admin", 99, 0, 0, "a"⟩,
        ⟨"secret", .RS256, ⟨1, "a", "admin", 99, 0, 0, "a"⟩⟩⟩ 10) = false ∧
    exceptOk (validateToken ⟨"secret", 24⟩
      ⟨.HS256, ⟨1, "a", "admin", 99, 0, 0, "a"⟩,
        ⟨"other", .HS256, ⟨1, "a", "admin", 99, 0, 0, "a"⟩⟩⟩ 10) = false := by
  refine ⟨?_, ?_, ?_⟩
  · exact (c4_validateToken_rejects ⟨"secret", 24⟩ _ 10).1 (by decide)
  · exact (c4_validateToken_rejects ⟨"secret", 24⟩ _ 10).2.1 (by decide)
  · exact (c4_validateToken_rejects ⟨"secret", 24⟩ _ 10).2.2 (by decide)

/-- C5: a token generated by the service validates successfully against
the same service at any instant from issuance up to (strictly before)
expiry, and the claims carry the user's id, email and role. -/
theorem c5_token_roundtrip (svc : JWTService) (user : User) (now t : Int)
    (h1 : now ≤ t) (h2 : t < now + svc.expiry * 3600) :
    validateToken svc (generateToken svc user now) t
        = .ok (generateToken svc user now).claims ∧
    (generateToken svc user now).claims.userID = user.id ∧
    (generateToken svc user now).claims.email = user.email ∧
    (generateToken svc user now).claims.role = user.role := by
  refine ⟨?_, rfl, rfl, rfl⟩
  have hexp : ¬ (now + svc.expiry * 3600 ≤ t) := by omega
  have hnbf : ¬ (t < now) := by omega
  simp [validateToken, generateToken, Alg.isHMAC, hexp, hnbf]

/-- Witness for C5: a concrete token issued at time 0 with a 1-hour
expiry validates at time 5 and returns the issuing user's data. -/
theorem c5_token_roundtrip_witness :
    validateToken ⟨"k", 1⟩ (generateToken ⟨"k", 1⟩ ⟨7, "u@x", "pw", "student", none, none⟩ 0) 5
        = .ok (generateToken ⟨"k", 1⟩ ⟨7, "u@x", "pw", "student", none, none⟩ 0).claims ∧
    (generateToken ⟨"k", 1⟩ ⟨7, "u@x", "pw", "student", none, none⟩ 0).claims.userID = 7 ∧
    (generateToken ⟨"k", 1⟩ ⟨7, "u@x", "pw", "student", none, none⟩ 0).claims.email = "u@x" ∧
    (generateToken ⟨"k", 1⟩ ⟨7, "u@x", "pw", "student", none, none⟩ 0).claims.role = "student" :=
  c5_token_roundtrip ⟨"k", 1⟩ ⟨7, "u@x", "pw", "student", none, none⟩ 0 5
    (by decide) (by decide)

/-- C8: on any non-public path, a missing Authorization header or one
that is not exactly two space-separated tokens with first `"Bearer"` is
rejected with 401 and a JSON error body, without consulting token
validation (the result is the same for every validator). -/
theorem c8_middleware_malformed_header
    (validate validate2 : String → Except String JWTClaims)
    (path header : String)
    (hpub : publicRoutes.contains path = false)
    (hmal : ¬ ∃ token, goSplit header ' ' = ["Bearer", token]) :
    (authMiddleware validate path header = .rejected 401 bodyAuthHeaderRequired ∨
     authMiddleware validate path header = .rejected 401 bodyInvalidAuthFormat) ∧
    authMiddleware validate path header = authMiddleware validate2 path header := by
  have hnc : ¬ (publicRoutes.contains path = true) := by
    intro hcc
    rw [hpub] at hcc
    cases hcc
  by_cases hh : header = ""
  · have key : ∀ v : String → Except String JWTClaims,
        authMiddleware v path header = .rejected 401 bodyAuthHeaderRequired := by
      intro v
      unfold authMiddleware
      rw [if_neg hnc, if_pos (by simp [hh])]
    exact ⟨Or.inl (key validate), (key validate).trans (key validate2).symm⟩
  · have key : ∀ v : String → Except String JWTClaims,
        authMiddleware v path header = .rejected 401 bodyInvalidAuthFormat := by
      intro v
      unfold authMiddleware
      rw [if_neg hnc, if_neg (by simp [hh])]
      rcases e : goSplit header ' ' with _ | ⟨b, _ | ⟨t, _ | ⟨c, rest⟩⟩⟩
      · rfl
      · rfl
      · have hb : b ≠ "Bearer" := by
          intro hbe
          exact hmal ⟨t, by rw [e, hbe]⟩
        simp [bne_iff_ne, hb]
      · rfl
    exact ⟨Or.inr (key validate), (key validate).trans (key validate2).symm⟩

/-- Witness for C8: the header `"Token abc"` on the protected path
`/api/students` is rejected identically under two different validators. -/
theorem c8_middleware_malformed_header_witness :
    (authMiddleware (fun _ => .error "e") "/api/students" "Token abc"
        = .rejected 401 bodyAuthHeaderRequired ∨
     authMiddleware (fun _ => .error "e") "/api/students" "Token abc"
        = .rejected 401 bodyInvalidAuthFormat) ∧
    authMiddleware (fun _ => .error "e") "/api/students" "Token abc"
      = authMiddleware (fun t => .ok ⟨1, t, "admin", 99, 0, 0, t⟩) "/api/students" "Token abc" :=
  c8_middleware_malformed_header (fun _ => .error "e")
    (fun t => .ok ⟨1, t, "admin", 99, 0, 0, t⟩) "/api/students" "Token abc"
    (by decide)
    (by simp [show goSplit "Token abc" ' ' = ["Token", "abc"] from by decide])

/-- Counterexample for C3: the path `/api/auth/refresh` lies in the
prefix-matched auth sub-tree (and `IsPublicRoute` accepts it), yet the
middleware, whose own public list is exact-match only, rejects a
token-less request to it with 401 instead of dispatching it. -/
theorem c3_public_routes_counterexample :
    strHasPrefix "/api/auth/refresh" "/api/auth/" = true ∧
    isPublicRoute "/api/auth/refresh" = true ∧
    authMiddleware (fun _ => .error "invalid token") "/api/auth/refresh" ""
      = .rejected 401 bodyAuthHeaderRequired := by
  refine ⟨by decide, by decide, by decide⟩

/-- C3 (amended): the middleware dispatches a request without a token
exactly when its path is an exact match of `/`, `/health`,
`/api/auth/login` or `/api/auth/register` (the prefix rule of
`IsPublicRoute` is not part of the middleware's check); every other
request is either rejected with 401 or forwarded with claims obtained
from validating the presented bearer token. -/
theorem c3_public_routes_amended
    (validate : String → Except String JWTClaims) (path header : String) :
    (authMiddleware validate path header = .publicDispatch ↔
      (path = "/" ∨ path = "/health" ∨ path = "/api/auth/login" ∨
       path = "/api/auth/register")) ∧
    (¬ (path = "/" ∨ path = "/health" ∨ path = "/api/auth/login" ∨
        path = "/api/auth/register") →
      (∃ body, authMiddleware validate path header = .rejected 401 body) ∨
      (∃ token claims, goSplit header ' ' = ["Bearer", token] ∧
        validate token = .ok claims ∧
        authMiddleware validate path header = .forwarded claims)) := by
  have hmem : (publicRoutes.contains path = true) ↔
      (path = "/" ∨ path = "/health" ∨ path = "/api/auth/login" ∨
       path = "/api/auth/register") := by
    simp [publicRoutes, List.contains]
  constructor
  · constructor
    · intro h
      by_cases hc : publicRoutes.contains path = true
      · exact hmem.mp hc
      · exfalso
        unfold authMiddleware at h
        rw [if_neg hc] at h
        by_cases hh : header = ""
        · rw [if_pos (by simp [hh])] at h
          exact MwResult.noConfusion h
        · rw [if_neg (by simp [hh])] at h
          rcases e : goSplit header ' ' with _ | ⟨b, _ | ⟨t, _ | ⟨c, rest⟩⟩⟩ <;>
            rw [e] at h
          · exact MwResult.noConfusion h
          · exact MwResult.noConfusion h
          · by_cases hb : (b != "Bearer") = true
            · simp [hb] at h
            · rcases hv : validate t with err | claims <;>
                simp [hb, hv] at h
          · exact MwResult.noConfusion h
    · intro h
      unfold authMiddleware
      rw [if_pos (hmem.mpr h)]
  · intro h
    have hnc : ¬ (publicRoutes.contains path = true) := fun hcc => h (hmem.mp hcc)
    by_cases hh : header = ""
    · left
      refine ⟨bodyAuthHeaderRequired, ?_⟩
      unfold authMiddleware
      rw [if_neg hnc, if_pos (by simp [hh])]
    · rcases e : goSplit header ' ' with _ | ⟨b, _ | ⟨t, _ | ⟨c, rest⟩⟩⟩
      · left
        refine ⟨bodyInvalidAuthFormat, ?_⟩
        unfold authMiddleware
        rw [if_neg hnc, if_neg (by simp [hh]), e]
      · left
        refine ⟨bodyInvalidAuthFormat, ?_⟩
        unfold authMiddleware
        rw [if_neg hnc, if_neg (by simp [hh]), e]
      · by_cases hb : (b != "Bearer") = true
        · left
          refine ⟨bodyInvalidAuthFormat, ?_⟩
          unfold authMiddleware
          rw [if_neg hnc, if_neg (by simp [hh]), e]
          simp [hb]
        · have hbeq : b = "Bearer" := by
            simpa [bne_iff_ne] using hb
          rcases hv : validate t with err | claims
          · left
            refine ⟨bodyInvalidOrExpiredToken, ?_⟩
            unfold authMiddleware
            rw [if_neg hnc, if_neg (by simp [hh]), e]
            simp [hb, hv]
          · right
            refine ⟨t, claims, by rw [hbeq], hv, ?_⟩
            unfold authMiddleware
            rw [if_neg hnc, if_neg (by simp [hh]), e]
            simp [hb, hv]
      · left
        refine ⟨bodyInvalidAuthFormat, ?_⟩
        unfold authMiddleware
        rw [if_neg hnc, if_neg (by simp [hh]), e]

/-- Witness for the amended C3: with a concrete validator, the
protected path `/api/students` is not public, and a well-formed bearer
request to it is forwarded. -/
theorem c3_public_routes_amended_witness :
    (authMiddleware (fun t => .ok ⟨2, t, "admin", 9, 0, 0, t⟩) "/api/students" "Bearer tok"
        = .publicDispatch ↔
      ("/api/students" = "/" ∨ "/api/students" = "/health" ∨
       "/api/students" = "/api/auth/login" ∨ "/api/students" = "/api/auth/register")) ∧
    (¬ ("/api/students" = "/" ∨ "/api/students" = "/health" ∨
        "/api/students" = "/api/auth/login" ∨ "/api/students" = "/api/auth/register") →
      (∃ body, authMiddleware (fun t => .ok ⟨2, t, "admin", 9, 0, 0, t⟩)
          "/api/students" "Bearer tok" = .rejected 401 body) ∨
      (∃ token claims, goSplit "Bearer tok" ' ' = ["Bearer", token] ∧
        (fun t => (.ok ⟨2, t, "admin", 9, 0, 0, t⟩ : Except String JWTClaims)) token
          = .ok claims ∧
        authMiddleware (fun t => .ok ⟨2, t, "admin", 9, 0, 0, t⟩)
          "/api/students" "Bearer tok" = .forwarded claims)) :=
  c3_public_routes_amended (fun t => .ok ⟨2, t, "admin", 9, 0, 0, t⟩)
    "/api/students" "Bearer tok"

/-- C9: for every store state and query, a successful admin GetGroups
response carries an empty items list — the fetched rows are dropped
because the response's `Items` field is commented out — while
`Meta.TotalItems` still reports the count of groups matching the
filters. -/
theorem c9_getGroups_items_empty (db : DB) (claims : JWTClaims)
    (pageS limitS sortBy nameF codeF : String)
    (hrole : claims.role = RoleAdmin) :
    ∃ meta, getGroups db (some claims) pageS limitS sortBy nameF codeF
        = { status := 200, payload := .paginatedStudents meta [] } ∧
      meta.totalItems = ((db.groups.filter (groupMatches nameF codeF)).length : Int) := by
  refine ⟨buildMeta ((db.groups.filter (groupMatches nameF codeF)).length : Int)
      (if atoiOr0 pageS < 1 then 1 else atoiOr0 pageS)
      (if atoiOr0 limitS < 1 then 5 else atoiOr0 limitS), ?_, rfl⟩
  have hb : (claims.role != RoleAdmin) = false := by simp [bne_iff_ne, hrole]
  simp only [getGroups, hb, Bool.false_eq_true, if_false]

/-- Witness for C9: an admin listing of a store holding two groups
returns zero items but `TotalItems = 2`. -/
theorem c9_getGroups_items_empty_witness :
    ∃ meta, getGroups
        { DB.empty with groups := [⟨1, "G1", "A1"⟩, ⟨2, "G2", "A2"⟩] }
        (some ⟨1, "a@x", "admin", 99, 0, 0, "a@x"⟩) "" "" "" "" ""
        = { status := 200, payload := .paginatedStudents meta [] } ∧
      meta.totalItems = 2 := by
  obtain ⟨meta, h1, h2⟩ := c9_getGroups_items_empty
    { DB.empty with groups := [⟨1, "G1", "A1"⟩, ⟨2, "G2", "A2"⟩] }
    ⟨1, "a@x", "admin", 99, 0, 0, "a@x"⟩ "" "" "" "" "" rfl
  refine ⟨meta, h1, ?_⟩
  rw [h2]
  decide

/-- C10: registration does not validate the role string: any role other
than `student` and `teacher` (with a fresh email and succeeding store
writes) is accepted with 201, creating a User carrying the verbatim
role string and no linked Student or Teacher record, and leaving the
student and teacher tables untouched. -/
theorem c10_register_role_not_validated (svc : JWTService) (now : Int)
    (db : DB) (req : RegisterRequest)
    (hfresh : db.users.find? (fun u => u.email == req.email) = none)
    (hs : req.role ≠ RoleStudent) (ht : req.role ≠ RoleTeacher) :
    register svc now db (some req) [] =
      ( { status := 201
          payload := .authPayload
            (generateToken svc
              ⟨db.nextUserId, req.email, hashPassword req.password, req.role, none, none⟩ now)
            ⟨db.nextUserId, req.email, "", req.role, none, none⟩ }
      , { db with
            users := db.users ++
              [⟨db.nextUserId, req.email, hashPassword req.password, req.role, none, none⟩]
            nextUserId := db.nextUserId + 1 } ) := by
  have hbs : (req.role == RoleStudent) = false := by simp [hs]
  have hbt : (req.role == RoleTeacher) = false := by simp [ht]
  simp only [register, registerCreateUser, hfresh, hbs, hbt, takeOutcome,
    Bool.false_eq_true, if_false, not_true, Bool.not_true, ite_false]

/-- Witness for C10: registering with the arbitrary role `"superuser"`
against the empty store succeeds with 201 and creates no linked rows. -/
theorem c10_register_role_not_validated_witness :
    register ⟨"k", 24⟩ 0 DB.empty (some ⟨"a@x.com", "pw", "superuser"⟩) [] =
      ( { status := 201
          payload := .authPayload
            (generateToken ⟨"k", 24⟩
              ⟨1, "a@x.com", hashPassword "pw", "superuser", none, none⟩ 0)
            ⟨1, "a@x.com", "", "superuser", none, none⟩ }
      , { DB.empty with
            users := [⟨1, "a@x.com", hashPassword "pw", "superuser", none, none⟩]
            nextUserId := 2 } ) :=
  c10_register_role_not_validated ⟨"k", 24⟩ 0 DB.empty ⟨"a@x.com", "pw", "superuser"⟩
    (by decide) (by decide) (by decide)

/-- C6: on a student-role request, UpdateStudent resolves the student
row linked to the claims' user id — absence 403, path-id mismatch 403 —
and proceeds to the (claims-independent) update tail exactly on a
match; any non-student role skips the ownership lookup entirely and
goes straight to the same tail. -/
theorem c6_updateStudent_ownership (db : DB) (claims : JWTClaims)
    (pathId : String) (id : Int) (body? : Option StudentBody)
    (hid : atoi pathId = some id) :
    (claims.role = RoleStudent →
      (db.students.find? (fun s => s.userID == some claims.userID) = none →
        updateStudent db (some claims) pathId body?
          = (errResp 403 bodyStudentRecordNotFound, db)) ∧
      (∀ us, db.students.find? (fun s => s.userID == some claims.userID) = some us →
        (goUint id ≠ us.id →
          updateStudent db (some claims) pathId body?
            = (errResp 403 bodyCanOnlyEditOwnData, db)) ∧
        (goUint id = us.id →
          updateStudent db (some claims) pathId body?
            = updateStudentRest db id body?))) ∧
    (claims.role ≠ RoleStudent →
      updateStudent db (some claims) pathId body? = updateStudentRest db id body?) := by
  constructor
  · intro hrole
    have hb : (claims.role == RoleStudent) = true := by simp [hrole]
    constructor
    · intro hnone
      simp only [updateStudent, hid, hb, if_true, hnone]
    · intro us hus
      constructor
      · intro hne
        have hnb : (goUint id != us.id) = true := by simp [bne_iff_ne, hne]
        simp only [updateStudent, hid, hb, if_true, hus, hnb]
      · intro heq
        have hnb : (goUint id != us.id) = false := by simp [bne_iff_ne, heq]
        simp only [updateStudent, hid, hb, if_true, hus, hnb,
          Bool.false_eq_true, if_false]
  · intro hrole
    have hb : (claims.role == RoleStudent) = false := by simp [hrole]
    simp only [updateStudent, hid, hb, Bool.false_eq_true, if_false]

/-- Witness for C6: student A (user id 7, student row 2) asking to
update student 3 is denied with 403; an admin request with the same
path goes to the update tail. -/
theorem c6_updateStudent_ownership_witness :
    updateStudent
        { DB.empty with students := [⟨2, "A", "B", "a@x", none, some 7⟩] }
        (some ⟨7, "a@x", "student", 99, 0, 0, "a@x"⟩) "3" (some ⟨"N", "S"⟩)
      = (errResp 403 bodyCanOnlyEditOwnData,
         { DB.empty with students := [⟨2, "A", "B", "a@x", none, some 7⟩] }) ∧
    updateStudent
        { DB.empty with students := [⟨2, "A", "B", "a@x", none, some 7⟩] }
        (some ⟨1, "adm@x", "admin", 99, 0, 0, "adm@x"⟩) "3" (some ⟨"N", "S"⟩)
      = updateStudentRest
          { DB.empty with students := [⟨2, "A", "B", "a@x", none, some 7⟩] }
          3 (some ⟨"N", "S"⟩) := by
  constructor
  · exact (((c6_updateStudent_ownership
      { DB.empty with students := [⟨2, "A", "B", "a@x", none, some 7⟩] }
      ⟨7, "a@x", "student", 99, 0, 0, "a@x"⟩ "3" 3 (some ⟨"N", "S"⟩)
      (by decide)).1 rfl).2 ⟨2, "A", "B", "a@x", none, some 7⟩ (by decide)).1 (by decide)
  · exact (c6_updateStudent_ownership
      { DB.empty with students := [⟨2, "A", "B", "a@x", none, some 7⟩] }
      ⟨1, "adm@x", "admin", 99, 0, 0, "adm@x"⟩ "3" 3 (some ⟨"N", "S"⟩)
      (by decide)).2 (by decide)

/-- Counterexample for C2: registering a student against the empty store
with the linked-row create succeeding and the User create failing
answers 500, and afterwards the placeholder Student row is persisted
while no User exists — the two records are not created atomically. -/
theorem c2_register_not_atomic_counterexample :
    (register ⟨"k", 24⟩ 0 DB.empty (some ⟨"a@x.com", "secret1", "student"⟩)
        [true, false]).1.status = 500 ∧
    (register ⟨"k", 24⟩ 0 DB.empty (some ⟨"a@x.com", "secret1", "student"⟩)
        [true, false]).2.users = [] ∧
    (register ⟨"k", 24⟩ 0 DB.empty (some ⟨"a@x.com", "secret1", "student"⟩)
        [true, false]).2.students
      = [⟨1, "New", "Student", "a@x.com", none, none⟩] := by
  refine ⟨rfl, rfl, rfl⟩

/-- C2 (amended): registration creates the linked placeholder row
*before* the User and without a shared transaction.  When every store
write succeeds, both records exist afterwards with the cross-reference
backfilled on both sides; but when the User create fails after the
linked row was created, registration fails with 500 and the linked row
persists while no User is persisted. -/
theorem c2_register_linked_record_amended (svc : JWTService) (now : Int)
    (db : DB) (req : RegisterRequest)
    (hfresh : db.users.find? (fun u => u.email == req.email) = none)
    (hsid : ∀ s ∈ db.students, s.id ≠ db.nextStudentId)
    (htid : ∀ t ∈ db.teachers, t.id ≠ db.nextTeacherId) :
    (req.role = RoleStudent →
      (register svc now db (some req) []).1.status = 201 ∧
      (register svc now db (some req) []).2.users = db.users ++
        [⟨db.nextUserId, req.email, hashPassword req.password, req.role,
          some db.nextStudentId, none⟩] ∧
      (register svc now db (some req) []).2.students = db.students ++
        [⟨db.nextStudentId, "New", "Student", req.email, none, some db.nextUserId⟩]) ∧
    (req.role = RoleTeacher →
      (register svc now db (some req) []).1.status = 201 ∧
      (register svc now db (some req) []).2.users = db.users ++
        [⟨db.nextUserId, req.email, hashPassword req.password, req.role,
          none, some db.nextTeacherId⟩] ∧
      (register svc now db (some req) []).2.teachers = db.teachers ++
        [⟨db.nextTeacherId, "New", "Teacher", req.email, "", some db.nextUserId, []⟩]) ∧
    (req.role = RoleStudent →
      (register svc now db (some req) [true, false]).1.status = 500 ∧
      (register svc now db (some req) [true, false]).2.users = db.users ∧
      (register svc now db (some req) [true, false]).2.students = db.students ++
        [⟨db.nextStudentId, "New", "Student", req.email, none, none⟩]) := by
  refine ⟨?_, ?_, ?_⟩
  · intro hrole
    have hb : (req.role == RoleStudent) = true := by simp [hrole]
    have hmap : db.students.map (fun s =>
        if (s.id == db.nextStudentId) = true
        then { s with userID := some db.nextUserId } else s) = db.students :=
      mapEqSelf (fun s hs => by simp [hsid s hs])
    simp only [register, registerCreateUser, hfresh, hb, takeOutcome, if_true,
      Bool.not_true, Bool.false_eq_true, if_false, List.map_append, List.map_cons,
      List.map_nil, beq_self_eq_true]
    refine ⟨rfl, rfl, ?_⟩
    simp only [hmap]
    rfl
  · intro hrole
    have hbs : (req.role == RoleStudent) = false := by simp [hrole, RoleStudent, RoleTeacher]
    have hb : (req.role == RoleTeacher) = true := by simp [hrole]
    have hmap : db.teachers.map (fun t =>
        if (t.id == db.nextTeacherId) = true
        then { t with userID := some db.nextUserId } else t) = db.teachers :=
      mapEqSelf (fun t ht => by simp [htid t ht])
    simp only [register, registerCreateUser, hfresh, hbs, hb, takeOutcome, if_true,
      Bool.not_true, Bool.false_eq_true, if_false, List.map_append, List.map_cons,
      List.map_nil, beq_self_eq_true]
    refine ⟨rfl, rfl, ?_⟩
    simp only [hmap]
    rfl
  · intro hrole
    have hb : (req.role == RoleStudent) = true := by simp [hrole]
    simp only [register, registerCreateUser, hfresh, hb, takeOutcome, if_true,
      Bool.not_true, Bool.not_false, Bool.false_eq_true, if_false, ite_true]
    exact ⟨rfl, rfl, rfl⟩

/-- Witness for the amended C2: concrete registrations against the
empty store, for both linked roles and for the failing-User-create
schedule. -/
theorem c2_register_linked_record_amended_witness :
    ((register ⟨"k", 24⟩ 0 DB.empty (some ⟨"a@x.com", "pw", "student"⟩) []).1.status = 201 ∧
     (register ⟨"k", 24⟩ 0 DB.empty (some ⟨"a@x.com", "pw", "student"⟩) []).2.users
        = [⟨1, "a@x.com", hashPassword "pw", "student", some 1, none⟩] ∧
     (register ⟨"k", 24⟩ 0 DB.empty (some ⟨"a@x.com", "pw", "student"⟩) []).2.students
        = [⟨1, "New", "Student", "a@x.com", none, some 1⟩]) ∧
    ((register ⟨"k", 24⟩ 0 DB.empty (some ⟨"b@x.com", "pw", "teacher"⟩) []).1.status = 201 ∧
     (register ⟨"k", 24⟩ 0 DB.empty (some ⟨"b@x.com", "pw", "teacher"⟩) []).2.users
        = [⟨1, "b@x.com", hashPassword "pw", "teacher", none, some 1⟩] ∧
     (register ⟨"k", 24⟩ 0 DB.empty (some ⟨"b@x.com", "pw", "teacher"⟩) []).2.teachers
        = [⟨1, "New", "Teacher", "b@x.com", "", some 1, []⟩]) ∧
    ((register ⟨"k", 24⟩ 0 DB.empty (some ⟨"c@x.com", "pw", "student"⟩) [true, false]).1.status = 500 ∧
     (register ⟨"k", 24⟩ 0 DB.empty (some ⟨"c@x.com", "pw", "student"⟩) [true, false]).2.users = [] ∧
     (register ⟨"k", 24⟩ 0 DB.empty (some ⟨"c@x.com", "pw", "student"⟩) [true, false]).2.students
        = [⟨1, "New", "Student", "c@x.com", none, none⟩]) := by
  refine ⟨?_, ?_, ?_⟩
  · have h := (c2_register_linked_record_amended ⟨"k", 24⟩ 0 DB.empty
      ⟨"a@x.com", "pw", "student"⟩ (by decide) (by intro s hs; cases hs)
      (by intro t ht; cases ht)).1 rfl
    exact ⟨h.1, by rw [h.2.1]; rfl, by rw [h.2.2]; rfl⟩
  · have h := (c2_register_linked_record_amended ⟨"k", 24⟩ 0 DB.empty
      ⟨"b@x.com", "pw", "teacher"⟩ (by decide) (by intro s hs; cases hs)
      (by intro t ht; cases ht)).2.1 rfl
    exact ⟨h.1, by rw [h.2.1]; rfl, by rw [h.2.2]; rfl⟩
  · have h := (c2_register_linked_record_amended ⟨"k", 24⟩ 0 DB.empty
      ⟨"c@x.com", "pw", "student"⟩ (by decide) (by intro s hs; cases hs)
      (by intro t ht; cases ht)).2.2 rfl
    exact ⟨h.1, by rw [h.2.1]; rfl, by rw [h.2.2]; rfl⟩

/-- Counterexample for C1: a student-role request to UpdateStudent with
the malformed path id `"abc"` (the student has no linked row, so the
role/ownership gate would deny it) is answered 400, not 403 — the path
id is parsed before the role/ownership check in this handler. -/
theorem c1_ordering_counterexample :
    updateStudent DB.empty (some ⟨7, "a@x", "student", 99, 0, 0, "a@x"⟩) "abc"
        (some ⟨"N", "S"⟩)
      = (errResp 400 bodyInvalidStudentId, DB.empty) ∧
    (updateStudent DB.empty (some ⟨7, "a@x", "student", 99, 0, 0, "a@x"⟩) "abc"
        (some ⟨"N", "S"⟩)).1.status ≠ 403 := by
  exact ⟨rfl, by decide⟩

/-- C1 (amended): identity presence (401) is checked first in every
handler; for student delete and for every teacher operation the
admin-role gate (403) precedes id parsing, resource lookup and input
validation, so any non-admin gets 403 whatever the path id; student
update instead parses the path id before the role/ownership check, so a
student request with a malformed id gets 400, while with a well-formed
id a non-owner student still gets 403 before resource lookup and input
validation. -/
theorem c1_ordering_amended (db : DB) (claims : JWTClaims) (pathId : String)
    (sbody? : Option StudentBody) (tcb? : Option TeacherCreateBody)
    (tub? : Option TeacherUpdateBody)
    (pageS limitS sortBy nameF surnameF emailF : String)
    (hrole : claims.role ≠ RoleAdmin) :
    updateStudent db none pathId sbody? = (errResp 401 bodyNotAuthenticated, db) ∧
    deleteStudent db none pathId = (errResp 401 bodyNotAuthenticated, db) ∧
    getTeachers db none pageS limitS sortBy nameF surnameF emailF
      = errResp 401 bodyNotAuthenticated ∧
    createTeacher db none tcb? = (errResp 401 bodyNotAuthenticated, db) ∧
    updateTeacher db none pathId tub? = (errResp 401 bodyNotAuthenticated, db) ∧
    deleteTeacher db none pathId = (errResp 401 bodyNotAuthenticated, db) ∧
    deleteStudent db (some claims) pathId
      = (errResp 403 bodyInsufficientPermissions, db) ∧
    getTeachers db (some claims) pageS limitS sortBy nameF surnameF emailF
      = errResp 403 bodyInsufficientPermissions ∧
    createTeacher db (some claims) tcb?
      = (errResp 403 bodyInsufficientPermissions, db) ∧
    updateTeacher db (some claims) pathId tub?
      = (errResp 403 bodyInsufficientPermissions, db) ∧
    deleteTeacher db (some claims) pathId
      = (errResp 403 bodyInsufficientPermissions, db) ∧
    (claims.role = RoleStudent → atoi pathId = none →
      updateStudent db (some claims) pathId sbody?
        = (errResp 400 bodyInvalidStudentId, db)) ∧
    (claims.role = RoleStudent → ∀ id us, atoi pathId = some id →
      db.students.find? (fun s => s.userID == some claims.userID) = some us →
      goUint id ≠ us.id →
      updateStudent db (some claims) pathId sbody?
        = (errResp 403 bodyCanOnlyEditOwnData, db)) := by
  have hb : (claims.role != RoleAdmin) = true := by simp [bne_iff_ne, hrole]
  refine ⟨rfl, rfl, rfl, rfl, rfl, rfl, ?_, ?_, ?_, ?_, ?_, ?_, ?_⟩
  · simp only [deleteStudent, hb, if_true]
  · simp only [getTeachers, hb, if_true]
  · simp only [createTeacher, hb, if_true]
  · simp only [updateTeacher, hb, if_true]
  · simp only [deleteTeacher, hb, if_true]
  · intro hst hid
    simp only [updateStudent, hid]
  · intro hst id us hid hus hne
    have hsb : (claims.role == RoleStudent) = true := by simp [hst]
    have hnb : (goUint id != us.id) = true := by simp [bne_iff_ne, hne]
    simp only [updateStudent, hid, hsb, if_true, hus, hnb]

/-- Witness for the amended C1: a concrete student-role request with the
malformed id `"abc"` — student delete and all teacher operations answer
403 while student update answers 400. -/
theorem c1_ordering_amended_witness :
    updateStudent DB.empty none "abc" (some ⟨"N", "S"⟩)
      = (errResp 401 bodyNotAuthenticated, DB.empty) ∧
    deleteStudent DB.empty none "abc" = (errResp 401 bodyNotAuthenticated, DB.empty) ∧
    getTeachers DB.empty none "" "" "" "" "" ""
      = errResp 401 bodyNotAuthenticated ∧
    createTeacher DB.empty none (some ⟨"N", "S", "t@x", ""⟩)
      = (errResp 401 bodyNotAuthenticated, DB.empty) ∧
    updateTeacher DB.empty none "abc" none
      = (errResp 401 bodyNotAuthenticated, DB.empty) ∧
    deleteTeacher DB.empty none "abc" = (errResp 401 bodyNotAuthenticated, DB.empty) ∧
    deleteStudent DB.empty (some ⟨7, "a@x", "student", 99, 0, 0, "a@x"⟩) "abc"
      = (errResp 403 bodyInsufficientPermissions, DB.empty) ∧
    getTeachers DB.empty (some ⟨7, "a@x", "student", 99, 0, 0, "a@x"⟩) "" "" "" "" "" ""
      = errResp 403 bodyInsufficientPermissions ∧
    createTeacher DB.empty (some ⟨7, "a@x", "student", 99, 0, 0, "a@x"⟩)
        (some ⟨"N", "S", "t@x", ""⟩)
      = (errResp 403 bodyInsufficientPermissions, DB.empty) ∧
    updateTeacher DB.empty (some ⟨7, "a@x", "student", 99, 0, 0, "a@x"⟩) "abc" none
      = (errResp 403 bodyInsufficientPermissions, DB.empty) ∧
    deleteTeacher DB.empty (some ⟨7, "a@x", "student", 99, 0, 0, "a@x"⟩) "abc"
      = (errResp 403 bodyInsufficientPermissions, DB.empty) ∧
    (JWTClaims.role ⟨7, "a@x", "student", 99, 0, 0, "a@x"⟩ = RoleStudent →
      atoi "abc" = none →
      updateStudent DB.empty (some ⟨7, "a@x", "student", 99, 0, 0, "a@x"⟩) "abc"
          (some ⟨"N", "S"⟩)
        = (errResp 400 bodyInvalidStudentId, DB.empty)) ∧
    (JWTClaims.role ⟨7, "a@x", "student", 99, 0, 0, "a@x"⟩ = RoleStudent →
      ∀ id us, atoi "abc" = some id →
      DB.empty.students.find?
          (fun s => s.userID == some (JWTClaims.userID ⟨7, "a@x", "student", 99, 0, 0, "a@x"⟩))
        = some us →
      goUint id ≠ us.id →
      updateStudent DB.empty (some ⟨7, "a@x", "student", 99, 0, 0, "a@x"⟩) "abc"
          (some ⟨"N", "S"⟩)
        = (errResp 403 bodyCanOnlyEditOwnData, DB.empty)) :=
  c1_ordering_amended DB.empty ⟨7, "a@x", "student", 99, 0, 0, "a@x"⟩ "abc"
    (some ⟨"N", "S"⟩) (some ⟨"N", "S", "t@x", ""⟩) none "" "" "" "" "" ""
    (by decide)

end StudentBackend
